import Mathlib

/-!
Verification of the myAIHR resume-analysis application.

This file gives a shallow embedding of the quota bookkeeping, file
validation, LLM-output coercion and authentication logic of the
repository (`backend/scripts/utils.py`, `src/backend/auth.py`,
`src/backend/models.py`, the `/api/upload` handler of `app.py`) and
proves the behavioural claims about them.

Modelling conventions:
* Python `int` is `Int`; nullable columns are `Option _`.
* The database session is modelled by explicit state passing: a
  function that mutates ORM objects returns the updated objects.
* Calls to external libraries that are not part of the repository
  (`json.loads`, `ast.literal_eval`, the `re.search` for a fenced
  code block, and the Ollama HTTP endpoint wrapped by `call_llm`)
  are parameters of the embedding, gathered in the `PyLib` record.
  String cleanup helpers (`str.strip`, `str.lower`, `re.sub` of the
  trailing-comma pattern, slicing, `find`/`rfind`) are implemented
  concretely.
* A Python expression that can raise inside a `try` block is modelled
  with `Option`/`Except`; the surrounding handler turns the failure
  into the fallback value exactly as the code does.
-/

/-- Python values as produced by `json.loads` / `ast.literal_eval`.
Floats are not needed by any claim and are omitted. -/
inductive PyVal where
  | pynone : PyVal
  | pybool : Bool → PyVal
  | pyint : Int → PyVal
  | pystr : String → PyVal
  | pylist : List PyVal → PyVal
  | pyobj : List (String × PyVal) → PyVal
deriving Repr

mutual

/-- Boolean equality on `PyVal` (the derived instance is unavailable for
a nested inductive, so it is spelled out). -/
def PyVal.beq : PyVal → PyVal → Bool
  | .pynone, .pynone => true
  | .pybool a, .pybool b => a == b
  | .pyint a, .pyint b => a == b
  | .pystr a, .pystr b => a == b
  | .pylist xs, .pylist ys => PyVal.beqList xs ys
  | .pyobj xs, .pyobj ys => PyVal.beqObj xs ys
  | _, _ => false
termination_by structural a => a

/-- See `PyVal.beq`. -/
def PyVal.beqList : List PyVal → List PyVal → Bool
  | [], [] => true
  | x :: xs, y :: ys => PyVal.beq x y && PyVal.beqList xs ys
  | _, _ => false
termination_by structural a => a

/-- See `PyVal.beq`. -/
def PyVal.beqObj : List (String × PyVal) → List (String × PyVal) → Bool
  | [], [] => true
  | (k, v) :: xs, (l, w) :: ys => k == l && PyVal.beq v w && PyVal.beqObj xs ys
  | _, _ => false
termination_by structural a => a

end

theorem PyVal.beq_iff_eq (a b : PyVal) : PyVal.beq a b = true ↔ a = b := by
  refine PyVal.beq.induct
    (fun a b => PyVal.beq a b = true ↔ a = b)
    (fun xs ys => PyVal.beqObj xs ys = true ↔ xs = ys)
    (fun xs ys => PyVal.beqList xs ys = true ↔ xs = ys)
    ?_ ?_ ?_ ?_ ?_ ?_ ?_ ?_ ?_ ?_ ?_ ?_ ?_ a b
  · simp [PyVal.beq]
  · intro a b; simp [PyVal.beq]
  · intro a b; simp [PyVal.beq]
  · intro a b; simp [PyVal.beq]
  · intro xs ys ih; simp [PyVal.beq, ih]
  · intro xs ys ih; simp [PyVal.beq, ih]
  · intro t x h1 h2 h3 h4 h5 h6
    cases t <;> cases x <;> simp_all [PyVal.beq]
  · simp [PyVal.beqList]
  · intro x xs y ys ih1 ih2; simp [PyVal.beqList, ih1, ih2]
  · intro t x h1 h2
    cases t <;> cases x <;> simp_all [PyVal.beqList]
    exact fun _ _ => absurd rfl (h2 _ _ _ _ rfl rfl rfl)
  · simp [PyVal.beqObj]
  · intro k v xs l w ys ih1 ih2; simp [PyVal.beqObj, ih1, ih2]
  · intro t x h1 h2
    rcases t with _ | ⟨⟨k, v⟩, xs⟩ <;> rcases x with _ | ⟨⟨l, w⟩, ys⟩ <;>
      simp_all [PyVal.beqObj]
    exact fun _ _ => absurd rfl (h2 _ _ _ _ _ _ rfl rfl rfl rfl rfl)

instance : DecidableEq PyVal := fun a b =>
  decidable_of_iff (PyVal.beq a b = true) (PyVal.beq_iff_eq a b)

/-- Python truthiness (`bool(x)`) for the values of `PyVal`. -/
def pyTruthy : PyVal → Bool
  | .pynone => false
  | .pybool b => b
  | .pyint n => n ≠ 0
  | .pystr s => s ≠ ""
  | .pylist xs => !xs.isEmpty
  | .pyobj kvs => !kvs.isEmpty

/-- `a or b` on Python values. -/
def pyOr (a b : PyVal) : PyVal := if pyTruthy a then a else b

/-- First binding of a key in a Python dict (dict keys are unique, so
the first binding is the binding). -/
def dictGet : List (String × PyVal) → String → Option PyVal
  | [], _ => none
  | (k0, v0) :: rest, k => if k0 = k then some v0 else dictGet rest k

/-- `key in data` for a Python dict. -/
def dictHas (kvs : List (String × PyVal)) (k : String) : Bool :=
  (dictGet kvs k).isSome

/-- `data.get(key, default)`. -/
def dictGetD (kvs : List (String × PyVal)) (k : String) (d : PyVal) : PyVal :=
  (dictGet kvs k).getD d

/-- `data[key] = v`: update the (unique) binding in place, else append. -/
def dictSet : List (String × PyVal) → String → PyVal → List (String × PyVal)
  | [], k, v => [(k, v)]
  | (k0, v0) :: rest, k, v =>
      if k0 = k then (k0, v) :: rest else (k0, v0) :: dictSet rest k v

/-- Characters treated as whitespace by Python `str.strip()` / `\s`
(ASCII range; the inputs handled by the app are ASCII). -/
def pyIsSpace (c : Char) : Bool :=
  c == ' ' || c == Char.ofNat 9 || c == Char.ofNat 10 || c == Char.ofNat 13 ||
  c == Char.ofNat 11 || c == Char.ofNat 12

/-- Python `str.strip()` (no argument form). -/
def pyStrip (s : String) : String :=
  String.mk (((s.data.dropWhile pyIsSpace).reverse.dropWhile pyIsSpace).reverse)

/-- Python `str.strip(c)` for a single stripped character. -/
def pyStripChar (c : Char) (s : String) : String :=
  String.mk (((s.data.dropWhile (· == c)).reverse.dropWhile (· == c)).reverse)

/-- Python `str.find(c)` for a single-character needle: index of the
first occurrence, `-1` if absent. -/
def pyFindChar (s : String) (c : Char) : Int :=
  match s.data.findIdx? (· == c) with
  | some i => (i : Int)
  | none => -1

/-- Python `str.rfind(c)` for a single-character needle: index of the
last occurrence, `-1` if absent. -/
def pyRFindChar (s : String) (c : Char) : Int :=
  match s.data.reverse.findIdx? (· == c) with
  | some i => (s.data.length : Int) - 1 - (i : Int)
  | none => -1

/-- Python slice `s[a:b]` for non-negative bounds. -/
def pySlice (s : String) (a b : Int) : String :=
  String.mk ((s.data.drop a.toNat).take (b.toNat - a.toNat))

/-- Python `str.lower()` (the app's filenames are ASCII). -/
def pyLower (s : String) : String :=
  String.mk (s.data.map Char.toLower)

/-- Python `str.endswith(suffix)`. -/
def pyEndsWith (s suffix : String) : Bool :=
  suffix.data.isSuffixOf s.data

/-- Python `str.startswith(pre)`. -/
def pyStartsWith (s pre : String) : Bool :=
  pre.data.isPrefixOf s.data

/-- Python slice `s[n:]`. -/
def pyDrop (s : String) (n : Nat) : String :=
  String.mk (s.data.drop n)

/-- Python slice `s[:-n]`. -/
def pyDropRight (s : String) (n : Nat) : String :=
  String.mk (s.data.take (s.data.length - n))

/-- The open-brace and close-brace characters. -/
def lbrace : Char := Char.ofNat 123

/-- See `lbrace`. -/
def rbrace : Char := Char.ofNat 125

/-- The backtick character. -/
def btick : Char := Char.ofNat 96

/-- The single-quote character. -/
def squote : Char := Char.ofNat 39

/-- The double-quote character. -/
def dquote : Char := Char.ofNat 34

/-! ## Data model (`src/backend/models.py`)

Only the columns the verified code reads or writes are carried.
Timestamps are abstracted: a calendar date (`PyDate`) where only
month/year comparisons happen, an integer instant where only an
order comparison happens (`expires_at`). -/

/-- The month/year part of a `datetime`, as used by `check_and_reset_quota`. -/
structure PyDate where
  year : Int
  month : Int
deriving DecidableEq, Repr

/-- Row of the `users` table (`models.User`); profile-only columns are
not read by any verified function and are omitted. -/
structure User where
  id : Int
  email : String
  hashed_password : String
  scan_count : Option Int
  last_quota_reset : Option PyDate
deriving DecidableEq, Repr

/-- Row of the `resumescans` table (`models.ResumeScan`); the columns
derived from file-system I/O (stored filename, size) are omitted. -/
structure ResumeScan where
  user_id : Int
  original_filename : String
  ats_score : Int
  feedback : String
deriving DecidableEq, Repr

/-- Row of the `password_reset_tokens` table (`models.PasswordResetToken`). -/
structure ResetToken where
  id : Int
  user_id : Int
  token : String
  expires_at : Int
  used : Bool
deriving DecidableEq, Repr

/-! ## Quota bookkeeping (`backend/scripts/utils.py`) -/

/-- `settings.MAX_MONTHLY_SCANS` (default configuration value `10`). -/
def MAX_MONTHLY : Int := 10

/-- The hard-coded email that `check_and_reset_quota`/`consume_quota`
exempt from the quota. -/
def UNLIMITED_EMAIL : String := "nadeemali001@gmail.com"

/-- `check_and_reset_quota(db, user)`.  `today` is `date.today()` and
`now` is `datetime.now(timezone.utc)` (only its month/year part is ever
read back).  Returns the remaining-scan count together with the updated
user row (`db.commit()` is the state passing itself). -/
def check_and_reset_quota (today now : PyDate) (u : User) : Int × User :=
  if u.email == UNLIMITED_EMAIL then
    (999999, u)
  else
    let u1 :=
      match u.last_quota_reset with
      | none => { u with last_quota_reset := some now, scan_count := some 0 }
      | some last =>
          if last.month ≠ today.month ∨ last.year ≠ today.year then
            { u with scan_count := some 0, last_quota_reset := some now }
          else u
    let remaining := MAX_MONTHLY - (u1.scan_count.getD 0)
    (max 0 remaining, u1)

/-- `consume_quota(db, user)`. -/
def consume_quota (u : User) : User :=
  if u.email == UNLIMITED_EMAIL then u
  else { u with scan_count := some (u.scan_count.getD 0 + 1) }

/-- `settings.ALLOWED_EXTENSIONS`. -/
def ALLOWED_EXTENSIONS : List String := [".pdf", ".docx"]

/-- `allowed_file(filename)`. -/
def allowed_file (filename : String) : Bool :=
  if filename == "" then false
  else
    let lower := pyLower filename
    ALLOWED_EXTENSIONS.any (fun ext => pyEndsWith lower ext)

/-! ## The `/api/upload` handler (`app.py`, `api_upload_resume`)

The handler is modelled from authentication up to the creation of the
`ResumeScan` row.  File-system writes are I/O and assumed to succeed;
the result of `process_resume_file` is abstracted by the `score` and
`feedback` arguments (its shape is verified separately below). -/

/-- Outcome of `api_upload_resume`, one constructor per returned
`JSONResponse`. -/
inductive UploadResponse where
  | notAuthenticated
  | quotaExceeded
  | invalidFile
  | success
deriving DecidableEq, Repr

/-- HTTP status code of each `JSONResponse` of the handler. -/
def UploadResponse.status : UploadResponse → Nat
  | .notAuthenticated => 401
  | .quotaExceeded => 400
  | .invalidFile => 400
  | .success => 200

/-- `api_upload_resume`: the authenticated user (if any), the uploaded
filename and the user's scan rows in, response plus updated state out. -/
def api_upload_resume (today now : PyDate) (user? : Option User)
    (filename : String) (score : Int) (feedback : String)
    (scans : List ResumeScan) : UploadResponse × Option User × List ResumeScan :=
  match user? with
  | none => (.notAuthenticated, none, scans)
  | some u =>
      let r := check_and_reset_quota today now u
      if r.1 ≤ 0 then (.quotaExceeded, some r.2, scans)
      else if !allowed_file filename then (.invalidFile, some r.2, scans)
      else
        let scan : ResumeScan :=
          { user_id := r.2.id, original_filename := filename,
            ats_score := score, feedback := feedback }
        (.success, some (consume_quota r.2), scans ++ [scan])

/-! ## Concrete database rows used by witnesses and counterexamples -/

/-- The quota-exempt user with a full quota in the current month. -/
def nadFullUser : User :=
  { id := 1, email := UNLIMITED_EMAIL, hashed_password := "h",
    scan_count := some 10, last_quota_reset := some ⟨2026, 10⟩ }

/-- The quota-exempt user with a stale (missing) reset timestamp. -/
def nadStaleUser : User :=
  { id := 2, email := UNLIMITED_EMAIL, hashed_password := "h",
    scan_count := some 3, last_quota_reset := none }

/-- An ordinary user whose quota is exhausted for the current month. -/
def fullQuotaUser : User :=
  { id := 3, email := "user@example.com", hashed_password := "h",
    scan_count := some 10, last_quota_reset := some ⟨2026, 5⟩ }

/-- An ordinary user whose reset timestamp is from a previous month. -/
def staleQuotaUser : User :=
  { id := 4, email := "user@example.com", hashed_password := "h",
    scan_count := some 9, last_quota_reset := some ⟨2026, 5⟩ }

/-- An ordinary user with remaining quota. -/
def freshQuotaUser : User :=
  { id := 5, email := "user@example.com", hashed_password := "h",
    scan_count := some 0, last_quota_reset := some ⟨2026, 10⟩ }

/-! ## Claims C9, C2, C1, C3 -/

/-- Claim C9: for the user whose email is exactly
`nadeemali001@gmail.com`, `check_and_reset_quota` always returns
`999999` without modifying the quota fields, and `consume_quota`
returns without incrementing `scan_count`. -/
theorem c9_unlimited_user_bypass (today now : PyDate) (u : User)
    (h : u.email = UNLIMITED_EMAIL) :
    check_and_reset_quota today now u = (999999, u) ∧ consume_quota u = u := by
  constructor <;> simp [check_and_reset_quota, consume_quota, h]

/-- Witness for C9 at a concrete user. -/
theorem c9_witness :
    check_and_reset_quota ⟨2026, 10⟩ ⟨2026, 10⟩ nadStaleUser = (999999, nadStaleUser) ∧
    consume_quota nadStaleUser = nadStaleUser :=
  c9_unlimited_user_bypass ⟨2026, 10⟩ ⟨2026, 10⟩ nadStaleUser rfl

/-- Counterexample to C2 as stated: for the quota-exempt user the
function returns `999999`, which is neither `max 0 (MAX - scan_count)`
nor between `0` and `MAX_MONTHLY`, and it does not reset the missing
`last_quota_reset`. -/
theorem c2_counterexample :
    (check_and_reset_quota ⟨2026, 10⟩ ⟨2026, 10⟩ nadStaleUser).2 = nadStaleUser ∧
    nadStaleUser.scan_count ≠ some 0 ∧
    nadStaleUser.last_quota_reset = none ∧
    (check_and_reset_quota ⟨2026, 10⟩ ⟨2026, 10⟩ nadStaleUser).1 = 999999 ∧
    (check_and_reset_quota ⟨2026, 10⟩ ⟨2026, 10⟩ nadStaleUser).1 ≠
      max 0 (MAX_MONTHLY -
        ((check_and_reset_quota ⟨2026, 10⟩ ⟨2026, 10⟩ nadStaleUser).2.scan_count.getD 0)) ∧
    ¬ (check_and_reset_quota ⟨2026, 10⟩ ⟨2026, 10⟩ nadStaleUser).1 ≤ MAX_MONTHLY := by
  decide

/-- Claim C2 (amended: the user with the hard-coded unlimited email is
excluded, and the `0 ≤ result ≤ MAX` bound additionally assumes the
stored scan count is non-negative, as every value the application
writes is): `check_and_reset_quota` resets `scan_count` to `0` and
`last_quota_reset` to now whenever the stored month/year differ from
today's or the timestamp is missing, and returns
`max 0 (MAX_MONTHLY - scan_count)`. -/
theorem c2_check_and_reset_quota_amended (today now : PyDate) (u : User)
    (h : u.email ≠ UNLIMITED_EMAIL) :
    ((u.last_quota_reset = none ∨
        ∃ d, u.last_quota_reset = some d ∧ (d.month ≠ today.month ∨ d.year ≠ today.year)) →
      (check_and_reset_quota today now u).2.scan_count = some 0 ∧
      (check_and_reset_quota today now u).2.last_quota_reset = some now) ∧
    (check_and_reset_quota today now u).1 =
      max 0 (MAX_MONTHLY - ((check_and_reset_quota today now u).2.scan_count.getD 0)) ∧
    (0 ≤ u.scan_count.getD 0 →
      0 ≤ (check_and_reset_quota today now u).1 ∧
      (check_and_reset_quota today now u).1 ≤ MAX_MONTHLY) := by
  have hb : (u.email == UNLIMITED_EMAIL) = false := by
    simpa using h
  rcases hlast : u.last_quota_reset with _ | d
  · refine ⟨fun _ => ?_, ?_, fun _ => ?_⟩ <;>
      simp [check_and_reset_quota, hb, hlast, MAX_MONTHLY]
  · by_cases hm : d.month ≠ today.month ∨ d.year ≠ today.year
    · refine ⟨fun _ => ?_, ?_, fun _ => ?_⟩ <;>
        simp [check_and_reset_quota, hb, hlast, hm, MAX_MONTHLY]
    · refine ⟨fun hcond => ?_, ?_, fun hnn => ?_⟩
      · rcases hcond with hnone | ⟨d', hd', hdiff⟩
        · cases hnone
        · cases hd'
          exact absurd hdiff hm
      · simp [check_and_reset_quota, hb, hlast, hm]
      · have hgoal : (check_and_reset_quota today now u).1 =
            max 0 (MAX_MONTHLY - u.scan_count.getD 0) := by
          simp [check_and_reset_quota, hb, hlast, hm]
        rw [hgoal]
        have h10 : MAX_MONTHLY = (10 : Int) := rfl
        rw [h10]
        omega

/-- Witness for C2's amended theorem at a user whose reset timestamp is
a month old. -/
theorem c2_witness :
    (check_and_reset_quota ⟨2026, 6⟩ ⟨2026, 6⟩ staleQuotaUser).2.scan_count = some 0 ∧
    (check_and_reset_quota ⟨2026, 6⟩ ⟨2026, 6⟩ staleQuotaUser).2.last_quota_reset =
      some ⟨2026, 6⟩ ∧
    0 ≤ (check_and_reset_quota ⟨2026, 6⟩ ⟨2026, 6⟩ staleQuotaUser).1 ∧
    (check_and_reset_quota ⟨2026, 6⟩ ⟨2026, 6⟩ staleQuotaUser).1 ≤ MAX_MONTHLY := by
  have h := c2_check_and_reset_quota_amended ⟨2026, 6⟩ ⟨2026, 6⟩ staleQuotaUser (by decide)
  have hr := h.1 (Or.inr ⟨⟨2026, 5⟩, rfl, by decide⟩)
  exact ⟨hr.1, hr.2, h.2.2 (by decide)⟩

/-- Counterexample to C1 as stated: the quota-exempt user has
`scan_count = MAX_MONTHLY` in the current month, yet the upload succeeds
and a `ResumeScan` row is created. -/
theorem c1_counterexample :
    nadFullUser.scan_count = some MAX_MONTHLY ∧
    nadFullUser.last_quota_reset = some ⟨2026, 10⟩ ∧
    (api_upload_resume ⟨2026, 10⟩ ⟨2026, 10⟩ (some nadFullUser) "resume.pdf" 50 "ok" []).1 =
      .success ∧
    (api_upload_resume ⟨2026, 10⟩ ⟨2026, 10⟩ (some nadFullUser) "resume.pdf" 50 "ok" []).2.2 ≠
      [] := by
  decide

/-- After `check_and_reset_quota` the scan count is still within the
quota, and so is it after a subsequent `consume_quota` whenever the
returned remaining count was positive. -/
theorem quota_step_bound (today now : PyDate) (u : User)
    (h : u.scan_count.getD 0 ≤ MAX_MONTHLY) :
    (check_and_reset_quota today now u).2.scan_count.getD 0 ≤ MAX_MONTHLY ∧
    (¬ (check_and_reset_quota today now u).1 ≤ 0 →
      (consume_quota (check_and_reset_quota today now u).2).scan_count.getD 0 ≤
        MAX_MONTHLY) := by
  by_cases hnad : (u.email == UNLIMITED_EMAIL) = true
  · have hcheck : check_and_reset_quota today now u = (999999, u) := by
      simp [check_and_reset_quota, hnad]
    rw [hcheck]
    exact ⟨h, fun _ => by simpa [consume_quota, hnad] using h⟩
  · have hb : (u.email == UNLIMITED_EMAIL) = false := by simpa using hnad
    rcases hlast : u.last_quota_reset with _ | d
    · have hcheck : check_and_reset_quota today now u =
          (max 0 (MAX_MONTHLY - 0),
           { u with last_quota_reset := some now, scan_count := some 0 }) := by
        simp [check_and_reset_quota, hb, hlast]
      rw [hcheck]
      refine ⟨by simp [MAX_MONTHLY], fun _ => ?_⟩
      simp [consume_quota, hb, MAX_MONTHLY]
    · by_cases hm : d.month ≠ today.month ∨ d.year ≠ today.year
      · have hcheck : check_and_reset_quota today now u =
            (max 0 (MAX_MONTHLY - 0),
             { u with scan_count := some 0, last_quota_reset := some now }) := by
          simp [check_and_reset_quota, hb, hlast, hm]
        rw [hcheck]
        refine ⟨by simp [MAX_MONTHLY], fun _ => ?_⟩
        simp [consume_quota, hb, MAX_MONTHLY]
      · have hcheck : check_and_reset_quota today now u =
            (max 0 (MAX_MONTHLY - u.scan_count.getD 0), u) := by
          simp [check_and_reset_quota, hb, hlast, hm]
        rw [hcheck]
        refine ⟨h, fun hpos => ?_⟩
        have h10 : MAX_MONTHLY = (10 : Int) := rfl
        simp only [consume_quota, hb, Bool.false_eq_true, if_false]
        simp only [h10] at *
        simp only [Option.getD_some]
        omega

/-- Claim C1 (amended: the hard-coded unlimited email is excluded from
the rejection guarantee; the `scan_count ≤ MAX` invariant holds for
every user because the exempt user's count is never incremented): when
an authenticated non-exempt user's scan count in the current month has
reached `MAX_MONTHLY`, `api_upload_resume` answers quota-exceeded,
creates no `ResumeScan` row and leaves the user unchanged; and one
upload step never pushes any user's scan count above `MAX_MONTHLY`. -/
theorem c1_quota_enforcement_amended (today now : PyDate) (u : User)
    (filename : String) (score : Int) (feedback : String) (scans : List ResumeScan) :
    (u.email ≠ UNLIMITED_EMAIL →
      ∀ d, u.last_quota_reset = some d → d.month = today.month → d.year = today.year →
      MAX_MONTHLY ≤ u.scan_count.getD 0 →
      api_upload_resume today now (some u) filename score feedback scans =
        (.quotaExceeded, some u, scans)) ∧
    (u.scan_count.getD 0 ≤ MAX_MONTHLY →
      ∀ u2, (api_upload_resume today now (some u) filename score feedback scans).2.1 = some u2 →
        u2.scan_count.getD 0 ≤ MAX_MONTHLY) := by
  constructor
  · intro hne d hlast hmon hyear hcount
    have hb : (u.email == UNLIMITED_EMAIL) = false := by simpa using hne
    have hm : ¬(d.month ≠ today.month ∨ d.year ≠ today.year) := by
      push_neg
      exact ⟨hmon, hyear⟩
    have hcheck : check_and_reset_quota today now u = (0, u) := by
      have h10 : MAX_MONTHLY = (10 : Int) := rfl
      simp [check_and_reset_quota, hb, hlast, hm]
      omega
    simp [api_upload_resume, hcheck]
  · intro hcount u2 hu2
    have hbound := quota_step_bound today now u hcount
    simp only [api_upload_resume] at hu2
    split at hu2
    next h1 =>
      simp only [Option.some.injEq] at hu2
      subst hu2
      exact hbound.1
    next h1 =>
      split at hu2
      next h2 =>
        simp only [Option.some.injEq] at hu2
        subst hu2
        exact hbound.1
      next h2 =>
        simp only [Option.some.injEq] at hu2
        subst hu2
        exact hbound.2 h1

/-- Witness for C1's amended theorem at a concrete exhausted user. -/
theorem c1_witness :
    api_upload_resume ⟨2026, 5⟩ ⟨2026, 5⟩ (some fullQuotaUser) "resume.pdf" 50 "ok" [] =
      (.quotaExceeded, some fullQuotaUser, []) :=
  (c1_quota_enforcement_amended ⟨2026, 5⟩ ⟨2026, 5⟩ fullQuotaUser "resume.pdf" 50 "ok" []).1
    (by decide) ⟨2026, 5⟩ rfl rfl rfl (by decide)

/-- Claim C3: `allowed_file` accepts exactly the non-empty filenames
whose lowercased form ends with `.pdf` or `.docx`, and an authenticated
upload with a filename failing this check is answered with a 400
response and no `ResumeScan` row. -/
theorem c3_allowed_file_upload :
    (∀ f : String, allowed_file f = true ↔
      (f ≠ "" ∧ (pyEndsWith (pyLower f) ".pdf" = true ∨
                 pyEndsWith (pyLower f) ".docx" = true))) ∧
    (∀ (today now : PyDate) (u : User) (f : String) (score : Int) (feedback : String)
        (scans : List ResumeScan),
      allowed_file f = false →
      (api_upload_resume today now (some u) f score feedback scans).1.status = 400 ∧
      (api_upload_resume today now (some u) f score feedback scans).2.2 = scans) := by
  constructor
  · intro f
    by_cases hf : f = ""
    · subst hf
      simp [allowed_file]
    · simp [allowed_file, ALLOWED_EXTENSIONS, hf]
  · intro today now u f score feedback scans hf
    simp only [api_upload_resume]
    split
    next h1 =>
      simp [UploadResponse.status]
    next h1 =>
      have hcond : (!allowed_file f) = true := by simp [hf]
      simp [hcond, UploadResponse.status]

/-- Witness for C3 at a concrete rejected filename. -/
theorem c3_witness :
    allowed_file "cv.txt" = false ∧
    (api_upload_resume ⟨2026, 10⟩ ⟨2026, 10⟩ (some freshQuotaUser) "cv.txt" 50 "ok" []).1.status
      = 400 ∧
    (api_upload_resume ⟨2026, 10⟩ ⟨2026, 10⟩ (some freshQuotaUser) "cv.txt" 50 "ok" []).2.2
      = [] :=
  ⟨by decide,
   c3_allowed_file_upload.2 ⟨2026, 10⟩ ⟨2026, 10⟩ freshQuotaUser "cv.txt" 50 "ok" []
     (by decide)⟩

/-! ## Authentication and password reset (`src/backend/auth.py`)

`get_password_hash` (passlib) is an external library call and is a
function parameter `hashpw` of each embedded operation; likewise
`pwd_ctx.verify` is the parameter `vp`, whose `UnknownHashError` is the
`unknownHash` outcome re-raised by `verify_password`. -/

/-- Python `c in s` for a single-character needle. -/
def pyContainsChar (s : String) (c : Char) : Bool :=
  s.data.any (· == c)

/-- Result of `verify_password`: a verdict, or the re-raised
`UnknownHashError`. -/
inductive VerifyOutcome where
  | ok : Bool → VerifyOutcome
  | unknownHash : VerifyOutcome
deriving DecidableEq, Repr

/-- `create_user(db, email, password)`.  `nextId` is the autoincrement
primary key and `createdAt` the server-side column default for
`last_quota_reset`; `scan_count` starts at its column default `0`.
The `ValueError` is the `.error` case. -/
def create_user (hashpw : String → String) (nextId : Int) (createdAt : PyDate)
    (db : List User) (email password : String) : Except String (List User × User) :=
  match db.find? (fun u => u.email == email) with
  | some _ => .error "Email already registered"
  | none =>
      let u : User := { id := nextId, email := email,
                        hashed_password := hashpw password,
                        scan_count := some 0, last_quota_reset := some createdAt }
      .ok (db ++ [u], u)

/-- `authenticate_user(db, email, password)`: the authenticated user
(if any) together with the updated `users` table. -/
def authenticate_user (hashpw : String → String)
    (vp : String → String → VerifyOutcome) (users : List User)
    (email password : String) : Option User × List User :=
  match users.find? (fun v => v.email == email) with
  | none => (none, users)
  | some u =>
      match vp password u.hashed_password with
      | .ok true => (some u, users)
      | .ok false => (none, users)
      | .unknownHash =>
          let stored := u.hashed_password
          if !pyContainsChar stored '$' && password == stored then
            let migrated : User := { u with hashed_password := hashpw password }
            (some migrated,
             users.map (fun v => if v.id == u.id then migrated else v))
          else (none, users)

/-- `verify_password_reset_token(db, token)`: first token row matching
the exact string, unused, with expiry strictly in the future; then the
`user` relationship of that row. -/
def verify_password_reset_token (users : List User) (toks : List ResetToken)
    (now : Int) (tok : String) : Option User :=
  match toks.find? (fun t => t.token == tok && !t.used && decide (now < t.expires_at)) with
  | none => none
  | some t => users.find? (fun u => u.id == t.user_id)

/-- Mutating `reset_token.used = True` on the first row matched by
`use_password_reset_token`'s query. -/
def markTokenUsed : List ResetToken → String → List ResetToken
  | [], _ => []
  | t :: rest, tok =>
      if t.token == tok && !t.used then { t with used := true } :: rest
      else t :: markTokenUsed rest tok

/-- `use_password_reset_token(db, token)`. -/
def use_password_reset_token (toks : List ResetToken) (tok : String) :
    Bool × List ResetToken :=
  match toks.find? (fun t => t.token == tok && !t.used) with
  | none => (false, toks)
  | some _ => (true, markTokenUsed toks tok)

/-- `reset_user_password(db, token, new_password)`. -/
def reset_user_password (hashpw : String → String) (users : List User)
    (toks : List ResetToken) (now : Int) (tok newPassword : String) :
    Bool × List User × List ResetToken :=
  match verify_password_reset_token users toks now tok with
  | none => (false, users, toks)
  | some u =>
      let users' := users.map (fun v =>
        if v.id == u.id then { v with hashed_password := hashpw newPassword } else v)
      (true, users', (use_password_reset_token toks tok).2)

/-- Claim C7: `create_user` raises `ValueError("Email already
registered")` iff a user with the given email already exists; otherwise
it appends exactly one user with that email and a hash of the given
password, which preserves uniqueness of emails. -/
theorem c7_create_user_unique_email (hashpw : String → String) (nextId : Int)
    (createdAt : PyDate) (db : List User) (email password : String) :
    ((∃ u ∈ db, u.email = email) ↔
      create_user hashpw nextId createdAt db email password =
        .error "Email already registered") ∧
    ((∀ u ∈ db, u.email ≠ email) →
      create_user hashpw nextId createdAt db email password =
        .ok (db ++ [{ id := nextId, email := email, hashed_password := hashpw password,
                      scan_count := some 0, last_quota_reset := some createdAt }],
             { id := nextId, email := email, hashed_password := hashpw password,
               scan_count := some 0, last_quota_reset := some createdAt }) ∧
      ((∀ u1 ∈ db, ∀ u2 ∈ db, u1.email = u2.email → u1 = u2) →
        ∀ u1 ∈ db ++ [{ id := nextId, email := email, hashed_password := hashpw password,
                        scan_count := some 0, last_quota_reset := some createdAt }],
        ∀ u2 ∈ db ++ [{ id := nextId, email := email, hashed_password := hashpw password,
                        scan_count := some 0, last_quota_reset := some createdAt }],
          u1.email = u2.email → u1 = u2)) := by
  cases hfind : db.find? (fun u => u.email == email) with
  | some u0 =>
      have hmem : u0 ∈ db := List.mem_of_find?_eq_some hfind
      have hp := List.find?_some hfind
      have heq : u0.email = email := by simpa using hp
      refine ⟨⟨fun _ => by simp [create_user, hfind], fun _ => ⟨u0, hmem, heq⟩⟩,
        fun hnone => absurd heq (hnone u0 hmem)⟩
  | none =>
      have hnone : ∀ u ∈ db, u.email ≠ email := by
        intro u hu
        have h := List.find?_eq_none.mp hfind u hu
        simpa using h
      constructor
      · constructor
        · rintro ⟨u, hu, he⟩
          exact absurd he (hnone u hu)
        · intro he
          simp [create_user, hfind] at he
      · intro _
        refine ⟨by simp [create_user, hfind], fun huniq => ?_⟩
        intro u1 hu1 u2 hu2 hemail
        rcases List.mem_append.mp hu1 with h1 | h1 <;>
          rcases List.mem_append.mp hu2 with h2 | h2
        · exact huniq u1 h1 u2 h2 hemail
        · rcases List.mem_singleton.mp h2 with rfl
          exact absurd hemail (by simpa using hnone u1 h1)
        · rcases List.mem_singleton.mp h1 with rfl
          exact absurd hemail.symm (by simpa using hnone u2 h2)
        · rw [List.mem_singleton.mp h1, List.mem_singleton.mp h2]

/-- Witness for C7: creating a user in an empty table. -/
theorem c7_witness :
    create_user (fun p => String.append "hashed-" p) 7 ⟨2026, 10⟩ [] "a@b.com" "pw" =
      .ok ([{ id := 7, email := "a@b.com", hashed_password := "hashed-pw",
              scan_count := some 0, last_quota_reset := some ⟨2026, 10⟩ }],
           { id := 7, email := "a@b.com", hashed_password := "hashed-pw",
             scan_count := some 0, last_quota_reset := some ⟨2026, 10⟩ }) := by
  have h := (c7_create_user_unique_email (fun p => String.append "hashed-" p) 7 ⟨2026, 10⟩
    [] "a@b.com" "pw").2 (by simp)
  simpa using h.1

/-- A stored credential that is plain text rather than a hash. -/
def legacyUser : User :=
  { id := 11, email := "legacy@example.com", hashed_password := "plainpw",
    scan_count := some 0, last_quota_reset := none }

/-- Claim C10: in `authenticate_user`, when verification raises
`UnknownHashError` and the stored value has no `$`, a plaintext match
authenticates and re-hashes the stored credential; a mismatch, or a
`$` in the unrecognized stored value, yields `None`. -/
theorem c10_plaintext_migration (hashpw : String → String)
    (vp : String → String → VerifyOutcome) (users : List User)
    (email password : String) (u : User)
    (hfind : users.find? (fun v => v.email == email) = some u)
    (hunk : vp password u.hashed_password = .unknownHash) :
    ((pyContainsChar u.hashed_password '$' = false ∧ password = u.hashed_password) →
      authenticate_user hashpw vp users email password =
        (some { u with hashed_password := hashpw password },
         users.map (fun v => if v.id == u.id
           then { u with hashed_password := hashpw password } else v))) ∧
    ((pyContainsChar u.hashed_password '$' = true ∨ password ≠ u.hashed_password) →
      authenticate_user hashpw vp users email password = (none, users)) := by
  constructor
  · rintro ⟨hnod, hpw⟩
    have hcond : (!pyContainsChar u.hashed_password '$' &&
        (password == u.hashed_password)) = true := by
      simp [hnod, hpw]
    simp [authenticate_user, hfind, hunk, hcond]
  · intro hbad
    have hcond : (!pyContainsChar u.hashed_password '$' &&
        (password == u.hashed_password)) = false := by
      rcases hbad with hdol | hne
      · simp [hdol]
      · simp [hne]
    simp [authenticate_user, hfind, hunk, hcond]

/-- Witness for C10: migrating a concrete plain-text credential. -/
theorem c10_witness :
    authenticate_user (fun p => String.append "H-" p) (fun _ _ => .unknownHash)
      [legacyUser] "legacy@example.com" "plainpw" =
      (some { legacyUser with hashed_password := "H-plainpw" },
       [{ legacyUser with hashed_password := "H-plainpw" }]) := by
  have h := (c10_plaintext_migration (fun p => String.append "H-" p)
    (fun _ _ => .unknownHash) [legacyUser] "legacy@example.com" "plainpw" legacyUser
    (by decide) rfl).1 ⟨by decide, rfl⟩
  simpa using h

/-- When token strings are pairwise distinct, after `markTokenUsed`
every row carrying the given token string is marked used. -/
theorem markTokenUsed_marks (tok : String) :
    ∀ toks : List ResetToken, List.Pairwise (fun a b => a.token ≠ b.token) toks →
      ∀ s ∈ markTokenUsed toks tok, s.token = tok → s.used = true := by
  intro toks
  induction toks with
  | nil =>
      intro _ s hs
      simp [markTokenUsed] at hs
  | cons t rest ih =>
      intro hp s hs hstok
      rw [List.pairwise_cons] at hp
      by_cases hc : (t.token == tok && !t.used) = true
      · rw [markTokenUsed, if_pos hc] at hs
        rcases List.mem_cons.mp hs with rfl | hmem
        · rfl
        · have ht : t.token = tok := by
            simp only [Bool.and_eq_true, beq_iff_eq] at hc
            exact hc.1
          exact absurd (ht.trans hstok.symm) (hp.1 s hmem)
      · rw [markTokenUsed, if_neg hc] at hs
        rcases List.mem_cons.mp hs with rfl | hmem
        · simp only [Bool.and_eq_true, beq_iff_eq, Bool.not_eq_true', not_and] at hc
          simpa using hc hstok
        · exact ih hp.2 s hmem hstok

/-- Claim C8: `verify_password_reset_token` returns the associated user
iff an unused, unexpired row with that exact token string exists (under
foreign-key integrity and uniqueness of token strings); for any other
token `reset_user_password` returns `False` leaving every user row
unchanged, and on success it stores a hash of the new password for the
token's user, leaves other users unchanged, and marks the token used. -/
theorem c8_password_reset_token (hashpw : String → String) (users : List User)
    (toks : List ResetToken) (now : Int) (tok newPassword : String)
    (huniq : List.Pairwise (fun a b => a.token ≠ b.token) toks)
    (hfk : ∀ t ∈ toks, ∃ u ∈ users, u.id = t.user_id) :
    ((∃ u, verify_password_reset_token users toks now tok = some u) ↔
      ∃ t ∈ toks, t.token = tok ∧ t.used = false ∧ now < t.expires_at) ∧
    (verify_password_reset_token users toks now tok = none →
      reset_user_password hashpw users toks now tok newPassword = (false, users, toks)) ∧
    (∀ u, verify_password_reset_token users toks now tok = some u →
      u ∈ users ∧
      (∃ t ∈ toks, t.token = tok ∧ t.used = false ∧ now < t.expires_at ∧
        u.id = t.user_id) ∧
      (reset_user_password hashpw users toks now tok newPassword).1 = true ∧
      (∃ v ∈ (reset_user_password hashpw users toks now tok newPassword).2.1,
        v.id = u.id ∧ v.hashed_password = hashpw newPassword) ∧
      (∀ v ∈ users, v.id ≠ u.id →
        v ∈ (reset_user_password hashpw users toks now tok newPassword).2.1) ∧
      (∀ s ∈ (reset_user_password hashpw users toks now tok newPassword).2.2,
        s.token = tok → s.used = true)) := by
  have hmark := markTokenUsed_marks tok toks huniq
  cases hfind : toks.find? (fun t => t.token == tok && !t.used &&
      decide (now < t.expires_at)) with
  | none =>
      have hnone : verify_password_reset_token users toks now tok = none := by
        simp [verify_password_reset_token, hfind]
      have hno : ¬ ∃ t ∈ toks, t.token = tok ∧ t.used = false ∧ now < t.expires_at := by
        rintro ⟨t, hmem, h1, h2, h3⟩
        have h := List.find?_eq_none.mp hfind t hmem
        simp [h1, h2, h3] at h
      refine ⟨⟨?_, ?_⟩, ?_, ?_⟩
      · rintro ⟨u, hu⟩
        rw [hnone] at hu
        cases hu
      · intro hex
        exact absurd hex hno
      · intro _
        simp [reset_user_password, hnone]
      · intro u hu
        rw [hnone] at hu
        cases hu
  | some t0 =>
      have hp := List.find?_some hfind
      have htmem : t0 ∈ toks := List.mem_of_find?_eq_some hfind
      simp only [Bool.and_eq_true, beq_iff_eq, Bool.not_eq_true',
        decide_eq_true_eq] at hp
      obtain ⟨⟨h1, h2⟩, h3⟩ := hp
      obtain ⟨u0, hu0mem, hu0id⟩ := hfk t0 htmem
      have hufind : ∃ u', users.find? (fun u => u.id == t0.user_id) = some u' := by
        cases hf : users.find? (fun u => u.id == t0.user_id) with
        | none =>
            have h := List.find?_eq_none.mp hf u0 hu0mem
            simp [hu0id] at h
        | some u' => exact ⟨u', rfl⟩
      obtain ⟨u', hu'⟩ := hufind
      have hverify : verify_password_reset_token users toks now tok = some u' := by
        simp [verify_password_reset_token, hfind, hu']
      have hu'mem : u' ∈ users := List.mem_of_find?_eq_some hu'
      have hu'id : u'.id = t0.user_id := by simpa using List.find?_some hu'
      have huse : (use_password_reset_token toks tok).2 = markTokenUsed toks tok := by
        cases hf2 : toks.find? (fun t => t.token == tok && !t.used) with
        | none =>
            have h := List.find?_eq_none.mp hf2 t0 htmem
            simp [h1, h2] at h
        | some _ => simp [use_password_reset_token, hf2]
      have hreset : reset_user_password hashpw users toks now tok newPassword =
          (true,
           users.map (fun v => if v.id == u'.id
             then { v with hashed_password := hashpw newPassword } else v),
           (use_password_reset_token toks tok).2) := by
        simp [reset_user_password, hverify]
      refine ⟨⟨fun _ => ⟨t0, htmem, h1, h2, h3⟩, fun _ => ⟨u', hverify⟩⟩, ?_, ?_⟩
      · intro hn
        rw [hverify] at hn
        cases hn
      · intro u hu
        rw [hverify] at hu
        injection hu with hu
        subst hu
        refine ⟨hu'mem, ⟨t0, htmem, h1, h2, h3, hu'id⟩, ?_, ?_, ?_, ?_⟩
        · rw [hreset]
        · rw [hreset]
          refine ⟨{ u' with hashed_password := hashpw newPassword },
            List.mem_map.mpr ⟨u', hu'mem, by simp⟩, by simp, rfl⟩
        · intro v hv hne
          rw [hreset]
          refine List.mem_map.mpr ⟨v, hv, ?_⟩
          have hid : (v.id == u'.id) = false := by simpa using hne
          simp [hid]
        · intro s hs hstok
          rw [hreset, huse] at hs
          exact hmark s hs hstok

/-- A user row holding a password-reset token. -/
def resetUserRow : User :=
  { id := 21, email := "r@example.com", hashed_password := "old",
    scan_count := some 0, last_quota_reset := none }

/-- An unused, unexpired reset-token row for `resetUserRow`. -/
def resetTokenRow : ResetToken :=
  { id := 1, user_id := 21, token := "T", expires_at := 100, used := false }

/-- Witness for C8: a concrete successful reset. -/
theorem c8_witness :
    verify_password_reset_token [resetUserRow] [resetTokenRow] 50 "T" = some resetUserRow ∧
    (reset_user_password (fun p => String.append "H-" p)
      [resetUserRow] [resetTokenRow] 50 "T" "npw").1 = true ∧
    (∀ s ∈ (reset_user_password (fun p => String.append "H-" p)
        [resetUserRow] [resetTokenRow] 50 "T" "npw").2.2,
      s.token = "T" → s.used = true) := by
  have h := c8_password_reset_token (fun p => String.append "H-" p)
    [resetUserRow] [resetTokenRow] 50 "T" "npw" (by simp) (by decide)
  have h3 := h.2.2 resetUserRow (by decide)
  exact ⟨by decide, h3.2.2.1, h3.2.2.2.2.2⟩

/-! ## LLM-output JSON coercion (`backend/scripts/utils.py`)

The external library calls are parameters, gathered in `PyLib`:
`loads` models `json.loads` (`none` = the raised exception; on the
strings handled below a successful parse of a brace-delimited string is
an object), `literal_eval` models `ast.literal_eval`, `fenced` models
group 1 of the fenced-block regex search, and `llm` models `call_llm`
(which never raises: every exception is caught and becomes `""`). -/

/-- The external library functions used by the coercion code. -/
structure PyLib where
  loads : String → Option PyVal
  literal_eval : String → Option PyVal
  fenced : String → Option String
  llm : String → String

/-- Python `s[:n]`. -/
def pyTake (s : String) (n : Nat) : String :=
  String.mk (s.data.take n)

/-- The right-bracket character. -/
def rbracket : Char := Char.ofNat 93

/-- One pass of the trailing-comma regex substitution: a comma followed
by optional whitespace and a closing brace or bracket is replaced by
that closer, scanning left to right over non-overlapping matches. -/
def stripTrailingCommasAux : List Char → List Char
  | [] => []
  | c :: rest =>
      if c = ',' then
        match hdw : rest.dropWhile pyIsSpace with
        | b :: tail =>
            if b = rbrace ∨ b = rbracket then b :: stripTrailingCommasAux tail
            else c :: stripTrailingCommasAux rest
        | [] => c :: stripTrailingCommasAux rest
      else c :: stripTrailingCommasAux rest
termination_by cs => cs.length
decreasing_by
  · have hs := (List.dropWhile_sublist (l := rest) pyIsSpace).length_le
    rw [hdw] at hs
    simp at hs ⊢
    omega
  · simp
  · simp
  · simp

/-- The regex substitution removing trailing commas before a closer. -/
def pySubTrailingCommas (s : String) : String :=
  String.mk (stripTrailingCommasAux s.data)

/-- `candidate.replace("'", '"')`. -/
def pyReplaceQuotes (s : String) : String :=
  String.mk (s.data.map (fun c => if c = squote then dquote else c))

/-- The repair ladder applied to one candidate snippet: trailing-comma
removal, then `json.loads`, then `json.loads` of the single-to-double
quote replacement, then `ast.literal_eval` of the comma-cleaned text. -/
def repairCandidate (lib : PyLib) (cand : String) : Option PyVal :=
  let c := pySubTrailingCommas cand
  match lib.loads c with
  | some v => some v
  | none =>
      match lib.loads (pyReplaceQuotes c) with
      | some v => some v
      | none => lib.literal_eval c

/-- The `text[start : end + 1]` snippet from the first open brace to
the last close brace, when both exist in that order. -/
def braceSnippet (text : String) : Option String :=
  let start := pyFindChar text lbrace
  let stop := pyRFindChar text rbrace
  if start ≠ -1 ∧ stop ≠ -1 ∧ stop > start then some (pySlice text start (stop + 1))
  else none

/-- `_parse_json_or_fallback(text)`. -/
def parse_json_or_fallback (lib : PyLib) (text : String) : Option PyVal :=
  if text = "" then none
  else
    match lib.loads text with
    | some v => some v
    | none =>
        match lib.fenced text with
        | some cand =>
            match repairCandidate lib cand with
            | some v => some v
            | none => (braceSnippet text).bind (repairCandidate lib)
        | none => (braceSnippet text).bind (repairCandidate lib)

/-- Claim C5: `_parse_json_or_fallback` returns `None` on empty input;
a whole-text strict parse is returned as is; otherwise the fenced block
and then the first-to-last-brace snippet are tried in order, each
through the repair ladder of `repairCandidate`; if everything fails the
result is `None`. -/
theorem c5_parse_json_fallback_layers (lib : PyLib) (text : String) :
    (parse_json_or_fallback lib "" = none) ∧
    (text ≠ "" → ∀ v, lib.loads text = some v →
      parse_json_or_fallback lib text = some v) ∧
    (∀ cand, repairCandidate lib cand =
      (match lib.loads (pySubTrailingCommas cand) with
       | some v => some v
       | none =>
          match lib.loads (pyReplaceQuotes (pySubTrailingCommas cand)) with
          | some v => some v
          | none => lib.literal_eval (pySubTrailingCommas cand))) ∧
    (text ≠ "" → lib.loads text = none →
      parse_json_or_fallback lib text =
        (match lib.fenced text with
         | some cand =>
            (match repairCandidate lib cand with
             | some v => some v
             | none => (braceSnippet text).bind (repairCandidate lib))
         | none => (braceSnippet text).bind (repairCandidate lib))) ∧
    (text ≠ "" → lib.loads text = none →
      (∀ cand, lib.fenced text = some cand → repairCandidate lib cand = none) →
      (braceSnippet text).bind (repairCandidate lib) = none →
      parse_json_or_fallback lib text = none) := by
  refine ⟨by simp [parse_json_or_fallback], ?_, fun cand => rfl, ?_, ?_⟩
  · intro ht v hv
    simp [parse_json_or_fallback, ht, hv]
  · intro ht hn
    simp [parse_json_or_fallback, ht, hn]
  · intro ht hn hfen hsnip
    simp only [parse_json_or_fallback, ht, if_neg (by simpa using ht), hn]
    cases hf : lib.fenced text with
    | none => simpa using hsnip
    | some cand =>
        simpa [hfen cand hf] using hsnip

/-- A concrete instantiation of the external-library record. -/
def c5lib : PyLib :=
  { loads := fun s => if s = "X" then some (.pyint 1) else none,
    literal_eval := fun _ => none,
    fenced := fun _ => none,
    llm := fun _ => "" }

/-- Witness for C5 at a concrete text and library instantiation. -/
theorem c5_witness :
    parse_json_or_fallback c5lib "X" = some (PyVal.pyint 1) ∧
    parse_json_or_fallback c5lib "" = none ∧
    parse_json_or_fallback c5lib "no json here" = none :=
  ⟨(c5_parse_json_fallback_layers c5lib "X").2.1 (by decide) (PyVal.pyint 1) rfl,
   (c5_parse_json_fallback_layers c5lib "X").1,
   (c5_parse_json_fallback_layers c5lib "no json here").2.2.2.2 (by decide) rfl
     (fun cand h => by simp [c5lib] at h) (by decide)⟩

/-! ## `process_resume_file` (`backend/scripts/utils.py`)

File-system reads are an oracle argument (`extracted`, the result of
`extract_text_from_file`); `random.randint(35, 90)` is modelled by
`35 + r % 56` for an arbitrary seed `r`, and the two `random.random() >
0.5` draws by the booleans `b1`, `b2`.  The whole function is total: the
`try` body is `processAttempt`, whose `none` routes to the mock exactly
as the `except` handler and the unparsable-`else` branch do. -/

/-- Python `int(x)` on a parsed value; `none` models the raised
`TypeError`/`ValueError`.  The string form accepts an optional sign and
decimal digits after stripping whitespace. -/
def pyToInt : PyVal → Option Int
  | .pyint n => some n
  | .pybool b => some (if b then 1 else 0)
  | .pystr s =>
      let t := (pyStrip s).data
      let signDigits : Int × List Char :=
        match t with
        | c :: rest =>
            if c = '-' then (-1, rest) else if c = '+' then (1, rest) else (1, t)
        | [] => (1, [])
      if signDigits.2 ≠ [] ∧ signDigits.2.all Char.isDigit then
        some (signDigits.1 *
          Int.ofNat (signDigits.2.foldl (fun acc c => acc * 10 + (c.toNat - 48)) 0))
      else none
  | _ => none

/-- Python `sep.join(x)`: joins a list of strings, the characters of a
string, or the keys of a dict; anything else raises (`none`). -/
def pyJoin (sep : String) : PyVal → Option String
  | .pylist xs =>
      if xs.all (fun x => match x with | .pystr _ => true | _ => false) then
        some (String.intercalate sep
          (xs.filterMap (fun x => match x with | .pystr s => some s | _ => none)))
      else none
  | .pystr s => some (String.intercalate sep (s.data.map (fun c => String.mk [c])))
  | .pyobj kvs => some (String.intercalate sep (kvs.map (fun kv => kv.1)))
  | _ => none

/-- Lookup on an object value (`none` on a non-object). -/
def pyObjGet (v : PyVal) (k : String) : Option PyVal :=
  match v with
  | .pyobj kvs => dictGet kvs k
  | _ => none

/-- Whether an optional value is a Python list. -/
def isPyList : Option PyVal → Bool
  | some (.pylist _) => true
  | _ => false

/-- The mock feedback line of `process_resume_file`. -/
def mockFeedback : String :=
  "Mock feedback: emphasize achievements, quantify results, and add relevant keywords."

/-- The mock analysis built when the LLM path fails. -/
def mockResumeResult (r : Nat) (b1 b2 : Bool) : PyVal :=
  .pyobj [
    ("score", .pyint (Int.ofNat (35 + r % 56))),
    ("feedback", .pystr mockFeedback),
    ("strengths", .pylist (if b1 then
        [.pystr "Clear formatting", .pystr "Relevant experience"]
      else [.pystr "Concise summary"])),
    ("weaknesses", .pylist (if b2 then
        [.pystr "Missing metrics", .pystr "Weak keywords"]
      else [.pystr "Too generic summary"])),
    ("suggestions", .pylist [
        .pystr "Quantify achievements with numbers",
        .pystr "Add specific keywords from job descriptions",
        .pystr "List measurable results for major projects"])]

/-- The resume text handed to the prompt: the extracted text, or the
placeholder when extraction produced nothing. -/
def resumeTextOf (basename extracted : String) : String :=
  if extracted = "" then
    String.append "[Could not extract text from file. Filename: "
      (String.append basename "]")
  else extracted

/-- The prompt built by `process_resume_file`; the fixed instruction
text is an opaque input of the LLM oracle and is abridged. -/
def processPrompt (basename resumeText : String) : String :=
  String.append "You are an expert resume reviewer. Resume filename: "
    (String.append basename (String.append "\n\nResume text:\n" resumeText))

/-- The `try` body of `process_resume_file` after `call_llm`: `some`
is the dict returned from the LLM path; `none` means the `except`
handler or the unparsable-`else` routes to the mock.  The exception
points are `int(...)` on the score, attribute access on a truthy
non-dict, and `"; ".join` on non-string items. -/
def processAttempt (lib : PyLib) (raw : String) : Option PyVal :=
  match parse_json_or_fallback lib raw with
  | none => none
  | some parsed =>
      if pyTruthy parsed then
        match parsed with
        | .pyobj kvs =>
            match pyToInt (dictGetD kvs "score" (.pyint 0)) with
            | none => none
            | some score =>
                let strengths := pyOr (dictGetD kvs "strengths" .pynone) (.pylist [])
                let weaknesses := pyOr (dictGetD kvs "weaknesses" .pynone) (.pylist [])
                let suggestions := pyOr (dictGetD kvs "suggestions" .pynone) (.pylist [])
                match (if pyTruthy suggestions then
                        (pyJoin "; " suggestions).map
                          (fun j => PyVal.pystr (String.append "Suggestions: " j))
                      else some (dictGetD kvs "feedback" (.pystr ""))) with
                | none => none
                | some feedback =>
                    some (.pyobj [("score", .pyint score),
                                  ("feedback", pyOr feedback (.pystr "")),
                                  ("strengths", strengths),
                                  ("weaknesses", weaknesses),
                                  ("suggestions", suggestions),
                                  ("raw", parsed)])
        | _ => none
      else none

/-- `process_resume_file(path)`. -/
def process_resume_file (lib : PyLib) (basename extracted : String)
    (r : Nat) (b1 b2 : Bool) : PyVal :=
  let raw := lib.llm (processPrompt basename (resumeTextOf basename extracted))
  match processAttempt lib raw with
  | some d => d
  | none => mockResumeResult r b1 b2

/-- Every dict the LLM path can return carries the five result keys. -/
theorem processAttempt_shape (lib : PyLib) (raw : String) (d : PyVal)
    (h : processAttempt lib raw = some d) :
    ∃ kvs, d = .pyobj kvs ∧ dictHas kvs "score" = true ∧
      dictHas kvs "feedback" = true ∧ dictHas kvs "strengths" = true ∧
      dictHas kvs "weaknesses" = true ∧ dictHas kvs "suggestions" = true := by
  unfold processAttempt at h
  dsimp only at h
  repeat' split at h
  all_goals first
    | (injection h with h
       subst h
       exact ⟨_, rfl, rfl, rfl, rfl, rfl, rfl⟩)
    | injection h

/-- Claim C4: `process_resume_file` is total and always returns a dict
with the keys score, feedback, strengths, weaknesses and suggestions;
when the LLM call fails (empty output) or its output cannot be coerced,
the result is the mock analysis, whose score is an integer between 35
and 90. -/
theorem c4_process_resume_total (lib : PyLib) (basename extracted : String)
    (r : Nat) (b1 b2 : Bool) :
    (∃ kvs, process_resume_file lib basename extracted r b1 b2 = .pyobj kvs ∧
      dictHas kvs "score" = true ∧ dictHas kvs "feedback" = true ∧
      dictHas kvs "strengths" = true ∧ dictHas kvs "weaknesses" = true ∧
      dictHas kvs "suggestions" = true) ∧
    (processAttempt lib
        (lib.llm (processPrompt basename (resumeTextOf basename extracted))) = none →
      process_resume_file lib basename extracted r b1 b2 = mockResumeResult r b1 b2) ∧
    (processAttempt lib "" = none) ∧
    (∃ n : Int, pyObjGet (mockResumeResult r b1 b2) "score" = some (.pyint n) ∧
      35 ≤ n ∧ n ≤ 90) := by
  refine ⟨?_, ?_, ?_, ?_⟩
  · cases hatt : processAttempt lib
        (lib.llm (processPrompt basename (resumeTextOf basename extracted))) with
    | some d =>
        obtain ⟨kvs, hd, h1, h2, h3, h4, h5⟩ := processAttempt_shape lib _ d hatt
        refine ⟨kvs, ?_, h1, h2, h3, h4, h5⟩
        rw [process_resume_file, hatt, hd]
    | none =>
        have hmock : process_resume_file lib basename extracted r b1 b2 =
            mockResumeResult r b1 b2 := by
          rw [process_resume_file, hatt]
        rw [hmock]
        exact ⟨_, rfl, rfl, rfl, rfl, rfl, rfl⟩
  · intro h
    rw [process_resume_file, h]
  · rfl
  · refine ⟨Int.ofNat (35 + r % 56), rfl, ?_, ?_⟩
    · show Int.ofNat 35 ≤ Int.ofNat (35 + r % 56)
      exact Int.ofNat_le.mpr (by omega)
    · show Int.ofNat (35 + r % 56) ≤ Int.ofNat 90
      have h56 : r % 56 < 56 := Nat.mod_lt r (by omega)
      exact Int.ofNat_le.mpr (by omega)

/-- Witness for C4 at the concrete library whose LLM output is empty:
the attempt fails and the mock is produced. -/
theorem c4_witness :
    process_resume_file c5lib "cv.pdf" "some text" 3 true false =
      mockResumeResult 3 true false ∧
    processAttempt c5lib "" = none :=
  ⟨(c4_process_resume_total c5lib "cv.pdf" "some text" 3 true false).2.1 (by decide),
   (c4_process_resume_total c5lib "cv.pdf" "some text" 3 true false).2.2.1⟩

/-! ## `analyze_resume_vs_jd` (`backend/scripts/utils.py`)

`random.randint(45, 95)`, `(40, 90)` and `(60, 95)` are modelled by
`45 + r1 % 51`, `40 + r2 % 51` and `60 + r3 % 36`. -/

/-- The twelve keys the function guarantees, in the code's order. -/
def expectedKeys : List String :=
  ["match_score", "ats_score", "strengths", "weaknesses", "improvements",
   "matched_keywords", "missing_keywords", "experience_match",
   "skills_alignment", "recommendation", "resume_name", "jd_title"]

/-- The keys defaulted to an empty list when missing. -/
def listKeys : List String :=
  ["strengths", "weaknesses", "improvements", "matched_keywords", "missing_keywords"]

/-- The keys defaulted to `0` when missing. -/
def numKeys : List String :=
  ["match_score", "ats_score", "skills_alignment"]

/-- The default written for a missing expected key. -/
def fillDefault (k : String) : PyVal :=
  if listKeys.contains k then .pylist []
  else if numKeys.contains k then .pyint 0
  else .pystr ""

/-- One iteration of the `for key in expected_keys` fill loop. -/
def fillOne (kvs : List (String × PyVal)) (k : String) : List (String × PyVal) :=
  if dictHas kvs k then kvs else dictSet kvs k (fillDefault k)

/-- The whole fill loop. -/
def fillExpected (kvs : List (String × PyVal)) : List (String × PyVal) :=
  expectedKeys.foldl fillOne kvs

/-- `if not data.get(k): data[k] = dflt`. -/
def setIfFalsy (kvs : List (String × PyVal)) (k : String) (dflt : PyVal) :
    List (String × PyVal) :=
  if pyTruthy (dictGetD kvs k .pynone) then kvs else dictSet kvs k dflt

/-- The replacement list for a falsy `strengths`. -/
def defaultStrengths : PyVal :=
  .pylist [.pystr "Resume shows relevant experience",
           .pystr "Clear professional formatting"]

/-- The replacement list for a falsy `weaknesses`. -/
def defaultWeaknesses : PyVal :=
  .pylist [.pystr "Could benefit from more specific achievements",
           .pystr "Missing some key industry keywords"]

/-- The replacement list for a falsy `improvements`. -/
def defaultImprovements : PyVal :=
  .pylist [.pystr "Quantify achievements with specific numbers",
           .pystr "Add more industry-specific keywords",
           .pystr "Include measurable results"]

/-- The three `if not data.get(...)` guards, in the code's order. -/
def ensureNonEmpty (kvs : List (String × PyVal)) : List (String × PyVal) :=
  setIfFalsy
    (setIfFalsy (setIfFalsy kvs "strengths" defaultStrengths)
      "weaknesses" defaultWeaknesses)
    "improvements" defaultImprovements

/-- The markdown cleanup and brace search of `analyze_resume_vs_jd`,
from the raw LLM reply to `json_str`; `none` is the raised
`ValueError("No valid JSON found in response")`. -/
def analyzeClean (raw : String) : Option String :=
  let rc0 := pyStrip raw
  let rc1 := if pyStartsWith rc0 "```json" then pyDrop rc0 7 else rc0
  let rc2 := if pyStartsWith rc1 "```" then pyDrop rc1 3 else rc1
  let rc3 := if pyEndsWith rc2 "```" then pyDropRight rc2 3 else rc2
  let rc := pyStripChar btick rc3
  if pyStartsWith rc "\x7b" && pyEndsWith rc "\x7d" then some rc
  else braceSnippet rc

/-- The bindings of the mock comparison returned when the reply cannot
be coerced. -/
def mockAnalyzeKvs (resume_name jd_title : String) (r1 r2 r3 : Nat) :
    List (String × PyVal) :=
  [
    ("match_score", .pyint (Int.ofNat (45 + r1 % 51))),
    ("ats_score", .pyint (Int.ofNat (40 + r2 % 51))),
    ("strengths", .pylist [
      .pystr "Resume demonstrates relevant technical experience in the field",
      .pystr "Clear and professional formatting that\x27s easy to read",
      .pystr "Shows progression in career with increasing responsibilities"]),
    ("weaknesses", .pylist [
      .pystr "Missing specific metrics and quantifiable achievements",
      .pystr "Could benefit from more industry-specific keywords",
      .pystr "Limited examples of leadership or project management experience"]),
    ("improvements", .pylist [
      .pystr "Add specific numbers and percentages to quantify achievements",
      .pystr "Include more keywords from the job description throughout the resume",
      .pystr "Add a summary section highlighting key qualifications",
      .pystr "Include examples of problem-solving and leadership experience"]),
    ("matched_keywords", .pylist [.pystr "python", .pystr "sql",
      .pystr "project management", .pystr "data analysis",
      .pystr "team collaboration"]),
    ("missing_keywords", .pylist [.pystr "aws", .pystr "machine learning",
      .pystr "agile methodology", .pystr "cloud computing"]),
    ("experience_match",
      .pystr "Mid-level professional with 3-5 years of relevant experience"),
    ("skills_alignment", .pyint (Int.ofNat (60 + r3 % 36))),
    ("recommendation",
      .pystr "Good overall fit with room for improvement. Focus on adding specific metrics and missing technical skills to increase match score."),
    ("resume_name", .pystr resume_name),
    ("jd_title", .pystr jd_title)]

/-- The mock comparison returned when the reply cannot be coerced. -/
def mockAnalyze (resume_name jd_title : String) (r1 r2 r3 : Nat) : PyVal :=
  .pyobj (mockAnalyzeKvs resume_name jd_title r1 r2 r3)

/-- The prompt of `analyze_resume_vs_jd`; the fixed instruction text is
an opaque input of the LLM oracle and is abridged; the contents are
truncated to 2000 characters as in the code. -/
def analyzePrompt (resume_content jd_content resume_name jd_title : String) : String :=
  String.append "Analyze this resume against the job description. Resume name: "
    (String.append resume_name (String.append "; JD title: "
      (String.append jd_title (String.append "; Resume: "
        (String.append (pyTake resume_content 2000)
          (String.append "; Job Description: " (pyTake jd_content 2000)))))))

/-- `analyze_resume_vs_jd(resume_content, jd_content, resume_name,
jd_title)`.  A reply whose `json_str` fails to parse, or parses to a
non-dict (on which the subsequent key operations raise), routes to the
mock in the `except` handler. -/
def analyze_resume_vs_jd (lib : PyLib)
    (resume_content jd_content resume_name jd_title : String)
    (r1 r2 r3 : Nat) : PyVal :=
  let raw := lib.llm (analyzePrompt resume_content jd_content resume_name jd_title)
  match analyzeClean raw with
  | none => mockAnalyze resume_name jd_title r1 r2 r3
  | some json_str =>
      match lib.loads json_str with
      | some (.pyobj kvs) => .pyobj (ensureNonEmpty (fillExpected kvs))
      | _ => mockAnalyze resume_name jd_title r1 r2 r3

theorem dictGet_dictSet_self (kvs : List (String × PyVal)) (k : String) (v : PyVal) :
    dictGet (dictSet kvs k v) k = some v := by
  induction kvs with
  | nil => simp [dictSet, dictGet]
  | cons kv rest ih =>
      obtain ⟨k0, v0⟩ := kv
      by_cases h : k0 = k
      · simp [dictSet, dictGet, h]
      · simp [dictSet, dictGet, h, ih]

theorem dictGet_dictSet_ne (kvs : List (String × PyVal)) (k k' : String) (v : PyVal)
    (h : k ≠ k') : dictGet (dictSet kvs k v) k' = dictGet kvs k' := by
  induction kvs with
  | nil => simp [dictSet, dictGet, h]
  | cons kv rest ih =>
      obtain ⟨k0, v0⟩ := kv
      by_cases h0 : k0 = k
      · subst h0
        simp [dictSet, dictGet, h]
      · by_cases h1 : k0 = k'
        · subst h1
          simp [dictSet, dictGet, h0]
        · simp [dictSet, dictGet, h0, h1, ih]

theorem dictHas_dictSet_self (kvs : List (String × PyVal)) (k : String) (v : PyVal) :
    dictHas (dictSet kvs k v) k = true := by
  simp [dictHas, dictGet_dictSet_self]

theorem dictHas_dictSet_ne (kvs : List (String × PyVal)) (k k' : String) (v : PyVal)
    (h : k ≠ k') : dictHas (dictSet kvs k v) k' = dictHas kvs k' := by
  simp [dictHas, dictGet_dictSet_ne _ _ _ _ h]

theorem fillOne_has_self (kvs : List (String × PyVal)) (k : String) :
    dictHas (fillOne kvs k) k = true := by
  by_cases h : dictHas kvs k = true
  · simpa [fillOne, h] using h
  · simp [fillOne, h, dictHas_dictSet_self]

theorem fillOne_preserves (kvs : List (String × PyVal)) (k j : String)
    (h : dictHas kvs j = true) : dictHas (fillOne kvs k) j = true := by
  by_cases hk : dictHas kvs k = true
  · simpa [fillOne, hk] using h
  · by_cases hjk : k = j
    · subst hjk
      simp [fillOne, hk, dictHas_dictSet_self]
    · simp [fillOne, hk, dictHas_dictSet_ne _ _ _ _ hjk, h]

theorem foldl_fillOne_preserves (l : List String) :
    ∀ kvs j, dictHas kvs j = true → dictHas (l.foldl fillOne kvs) j = true := by
  induction l with
  | nil => intro kvs j h; simpa using h
  | cons k rest ih => intro kvs j h; exact ih _ j (fillOne_preserves kvs k j h)

theorem foldl_fillOne_has (l : List String) :
    ∀ kvs j, j ∈ l → dictHas (l.foldl fillOne kvs) j = true := by
  induction l with
  | nil => intro kvs j h; cases h
  | cons k rest ih =>
      intro kvs j h
      rcases List.mem_cons.mp h with rfl | hmem
      · exact foldl_fillOne_preserves rest (fillOne kvs j) j (fillOne_has_self kvs j)
      · exact ih _ j hmem

/-- The fill loop guarantees every expected key. -/
theorem fillExpected_has (kvs : List (String × PyVal)) (j : String)
    (h : j ∈ expectedKeys) : dictHas (fillExpected kvs) j = true :=
  foldl_fillOne_has expectedKeys kvs j h

theorem setIfFalsy_truthy (kvs : List (String × PyVal)) (k : String) (dflt : PyVal)
    (hd : pyTruthy dflt = true) :
    pyTruthy (dictGetD (setIfFalsy kvs k dflt) k .pynone) = true := by
  by_cases h : pyTruthy (dictGetD kvs k .pynone) = true
  · simpa [setIfFalsy, h] using h
  · simp only [dictGetD] at h ⊢
    simp [setIfFalsy, dictGetD, h, dictGet_dictSet_self, hd]

theorem setIfFalsy_get_ne (kvs : List (String × PyVal)) (k k' : String) (dflt : PyVal)
    (h : k ≠ k') : dictGet (setIfFalsy kvs k dflt) k' = dictGet kvs k' := by
  by_cases ht : pyTruthy (dictGetD kvs k .pynone) = true
  · simp [setIfFalsy, ht]
  · simp [setIfFalsy, ht, dictGet_dictSet_ne _ _ _ _ h]

theorem setIfFalsy_has (kvs : List (String × PyVal)) (k k' : String) (dflt : PyVal)
    (h : dictHas kvs k' = true) : dictHas (setIfFalsy kvs k dflt) k' = true := by
  by_cases ht : pyTruthy (dictGetD kvs k .pynone) = true
  · simpa [setIfFalsy, ht] using h
  · by_cases hk : k = k'
    · subst hk
      simp [setIfFalsy, ht, dictHas_dictSet_self]
    · simp [setIfFalsy, ht, dictHas_dictSet_ne _ _ _ _ hk, h]

/-- After the three truthiness guards the three list keys are truthy
and every present key is still present. -/
theorem ensureNonEmpty_spec (kvs : List (String × PyVal)) :
    pyTruthy (dictGetD (ensureNonEmpty kvs) "strengths" .pynone) = true ∧
    pyTruthy (dictGetD (ensureNonEmpty kvs) "weaknesses" .pynone) = true ∧
    pyTruthy (dictGetD (ensureNonEmpty kvs) "improvements" .pynone) = true ∧
    (∀ j, dictHas kvs j = true → dictHas (ensureNonEmpty kvs) j = true) := by
  unfold ensureNonEmpty
  refine ⟨?_, ?_, ?_, ?_⟩
  · have h1 := setIfFalsy_truthy kvs "strengths" defaultStrengths (by decide)
    have h2 := setIfFalsy_get_ne (setIfFalsy kvs "strengths" defaultStrengths)
      "weaknesses" "strengths" defaultWeaknesses (by decide)
    have h3 := setIfFalsy_get_ne
      (setIfFalsy (setIfFalsy kvs "strengths" defaultStrengths)
        "weaknesses" defaultWeaknesses)
      "improvements" "strengths" defaultImprovements (by decide)
    simp only [dictGetD] at h1 ⊢
    rw [h3, h2]
    exact h1
  · have h1 := setIfFalsy_truthy (setIfFalsy kvs "strengths" defaultStrengths)
      "weaknesses" defaultWeaknesses (by decide)
    have h3 := setIfFalsy_get_ne
      (setIfFalsy (setIfFalsy kvs "strengths" defaultStrengths)
        "weaknesses" defaultWeaknesses)
      "improvements" "weaknesses" defaultImprovements (by decide)
    simp only [dictGetD] at h1 ⊢
    rw [h3]
    exact h1
  · exact setIfFalsy_truthy _ "improvements" defaultImprovements (by decide)
  · intro j h
    exact setIfFalsy_has _ _ _ _ (setIfFalsy_has _ _ _ _ (setIfFalsy_has _ _ _ _ h))

/-- A truthy value is in particular a non-empty list when it is a list. -/
theorem truthy_list_nonempty (kvs : List (String × PyVal)) (k : String)
    (h : pyTruthy (dictGetD kvs k .pynone) = true) :
    ∀ xs, dictGet kvs k = some (.pylist xs) → xs ≠ [] := by
  intro xs hget
  rw [dictGetD, hget] at h
  simpa [pyTruthy] using h

/-- The mock comparison carries all twelve keys with truthy lists. -/
theorem mockAnalyzeKvs_spec (resume_name jd_title : String) (r1 r2 r3 : Nat) :
    (∀ k, k ∈ expectedKeys →
      dictHas (mockAnalyzeKvs resume_name jd_title r1 r2 r3) k = true) ∧
    pyTruthy (dictGetD (mockAnalyzeKvs resume_name jd_title r1 r2 r3)
      "strengths" .pynone) = true ∧
    pyTruthy (dictGetD (mockAnalyzeKvs resume_name jd_title r1 r2 r3)
      "weaknesses" .pynone) = true ∧
    pyTruthy (dictGetD (mockAnalyzeKvs resume_name jd_title r1 r2 r3)
      "improvements" .pynone) = true := by
  refine ⟨?_, rfl, rfl, rfl⟩
  intro k hk
  simp only [expectedKeys, List.mem_cons, List.not_mem_nil, or_false] at hk
  rcases hk with rfl | rfl | rfl | rfl | rfl | rfl | rfl | rfl | rfl | rfl | rfl | rfl <;>
    rfl

/-- Claim C6 (amended: the three list keys are guaranteed to be truthy,
hence non-empty lists whenever they are lists; a truthy non-list value
parsed from the LLM for one of them is passed through unchanged):
`analyze_resume_vs_jd` always returns a dict with all twelve expected
keys, `strengths`, `weaknesses` and `improvements` are always truthy,
and whichever of them is a list is a non-empty list, on the parse path
and on the mock-fallback path alike. -/
theorem c6_analyze_keys_amended (lib : PyLib)
    (resume_content jd_content resume_name jd_title : String) (r1 r2 r3 : Nat) :
    ∃ kvs, analyze_resume_vs_jd lib resume_content jd_content resume_name jd_title
        r1 r2 r3 = .pyobj kvs ∧
      (∀ k, k ∈ expectedKeys → dictHas kvs k = true) ∧
      pyTruthy (dictGetD kvs "strengths" .pynone) = true ∧
      pyTruthy (dictGetD kvs "weaknesses" .pynone) = true ∧
      pyTruthy (dictGetD kvs "improvements" .pynone) = true ∧
      (∀ k xs, dictGet kvs k = some (.pylist xs) →
        (k = "strengths" ∨ k = "weaknesses" ∨ k = "improvements") → xs ≠ []) := by
  cases hc : analyzeClean
      (lib.llm (analyzePrompt resume_content jd_content resume_name jd_title)) with
  | none =>
      obtain ⟨hkeys, hs, hw, hi⟩ := mockAnalyzeKvs_spec resume_name jd_title r1 r2 r3
      refine ⟨mockAnalyzeKvs resume_name jd_title r1 r2 r3, ?_, hkeys, hs, hw, hi, ?_⟩
      · simp [analyze_resume_vs_jd, hc, mockAnalyze]
      · intro k xs hget hk
        rcases hk with rfl | rfl | rfl
        · exact truthy_list_nonempty _ _ hs xs hget
        · exact truthy_list_nonempty _ _ hw xs hget
        · exact truthy_list_nonempty _ _ hi xs hget
  | some js =>
      cases hl : lib.loads js with
      | none =>
          obtain ⟨hkeys, hs, hw, hi⟩ := mockAnalyzeKvs_spec resume_name jd_title r1 r2 r3
          refine ⟨mockAnalyzeKvs resume_name jd_title r1 r2 r3, ?_, hkeys, hs, hw, hi, ?_⟩
          · simp [analyze_resume_vs_jd, hc, hl, mockAnalyze]
          · intro k xs hget hk
            rcases hk with rfl | rfl | rfl
            · exact truthy_list_nonempty _ _ hs xs hget
            · exact truthy_list_nonempty _ _ hw xs hget
            · exact truthy_list_nonempty _ _ hi xs hget
      | some v =>
          cases v with
          | pyobj kvs0 =>
              obtain ⟨hs, hw, hi, hpres⟩ := ensureNonEmpty_spec (fillExpected kvs0)
              refine ⟨ensureNonEmpty (fillExpected kvs0), ?_, ?_, hs, hw, hi, ?_⟩
              · simp [analyze_resume_vs_jd, hc, hl]
              · intro k hk
                exact hpres k (fillExpected_has kvs0 k hk)
              · intro k xs hget hk
                rcases hk with rfl | rfl | rfl
                · exact truthy_list_nonempty _ _ hs xs hget
                · exact truthy_list_nonempty _ _ hw xs hget
                · exact truthy_list_nonempty _ _ hi xs hget
          | pynone =>
              obtain ⟨hkeys, hs, hw, hi⟩ := mockAnalyzeKvs_spec resume_name jd_title r1 r2 r3
              refine ⟨mockAnalyzeKvs resume_name jd_title r1 r2 r3, ?_, hkeys, hs, hw, hi, ?_⟩
              · simp [analyze_resume_vs_jd, hc, hl, mockAnalyze]
              · intro k xs hget hk
                rcases hk with rfl | rfl | rfl
                · exact truthy_list_nonempty _ _ hs xs hget
                · exact truthy_list_nonempty _ _ hw xs hget
                · exact truthy_list_nonempty _ _ hi xs hget
          | pybool b =>
              obtain ⟨hkeys, hs, hw, hi⟩ := mockAnalyzeKvs_spec resume_name jd_title r1 r2 r3
              refine ⟨mockAnalyzeKvs resume_name jd_title r1 r2 r3, ?_, hkeys, hs, hw, hi, ?_⟩
              · simp [analyze_resume_vs_jd, hc, hl, mockAnalyze]
              · intro k xs hget hk
                rcases hk with rfl | rfl | rfl
                · exact truthy_list_nonempty _ _ hs xs hget
                · exact truthy_list_nonempty _ _ hw xs hget
                · exact truthy_list_nonempty _ _ hi xs hget
          | pyint n =>
              obtain ⟨hkeys, hs, hw, hi⟩ := mockAnalyzeKvs_spec resume_name jd_title r1 r2 r3
              refine ⟨mockAnalyzeKvs resume_name jd_title r1 r2 r3, ?_, hkeys, hs, hw, hi, ?_⟩
              · simp [analyze_resume_vs_jd, hc, hl, mockAnalyze]
              · intro k xs hget hk
                rcases hk with rfl | rfl | rfl
                · exact truthy_list_nonempty _ _ hs xs hget
                · exact truthy_list_nonempty _ _ hw xs hget
                · exact truthy_list_nonempty _ _ hi xs hget
          | pystr s =>
              obtain ⟨hkeys, hs, hw, hi⟩ := mockAnalyzeKvs_spec resume_name jd_title r1 r2 r3
              refine ⟨mockAnalyzeKvs resume_name jd_title r1 r2 r3, ?_, hkeys, hs, hw, hi, ?_⟩
              · simp [analyze_resume_vs_jd, hc, hl, mockAnalyze]
              · intro k xs hget hk
                rcases hk with rfl | rfl | rfl
                · exact truthy_list_nonempty _ _ hs xs hget
                · exact truthy_list_nonempty _ _ hw xs hget
                · exact truthy_list_nonempty _ _ hi xs hget
          | pylist xs0 =>
              obtain ⟨hkeys, hs, hw, hi⟩ := mockAnalyzeKvs_spec resume_name jd_title r1 r2 r3
              refine ⟨mockAnalyzeKvs resume_name jd_title r1 r2 r3, ?_, hkeys, hs, hw, hi, ?_⟩
              · simp [analyze_resume_vs_jd, hc, hl, mockAnalyze]
              · intro k xs hget hk
                rcases hk with rfl | rfl | rfl
                · exact truthy_list_nonempty _ _ hs xs hget
                · exact truthy_list_nonempty _ _ hw xs hget
                · exact truthy_list_nonempty _ _ hi xs hget

/-- A library instantiation whose LLM reply is a JSON object carrying a
truthy non-list value for `strengths`. -/
def c6lib : PyLib :=
  { loads := fun s =>
      if s = "\x7b\x22strengths\x22: \x22good\x22\x7d" then
        some (.pyobj [("strengths", .pystr "good")])
      else none,
    literal_eval := fun _ => none,
    fenced := fun _ => none,
    llm := fun _ => "\x7b\x22strengths\x22: \x22good\x22\x7d" }

/-- Counterexample to C6 as stated: when the parsed object holds the
truthy string `"good"` under `strengths`, the result's `strengths` is
that string, not a non-empty list. -/
theorem c6_counterexample :
    pyObjGet (analyze_resume_vs_jd c6lib "r" "j" "rn" "jt" 0 0 0) "strengths" =
      some (PyVal.pystr "good") ∧
    isPyList (pyObjGet (analyze_resume_vs_jd c6lib "r" "j" "rn" "jt" 0 0 0)
      "strengths") = false := by
  decide

/-- A library instantiation whose LLM reply is empty, forcing the mock. -/
def c6mockLib : PyLib :=
  { loads := fun _ => none,
    literal_eval := fun _ => none,
    fenced := fun _ => none,
    llm := fun _ => "" }

/-- Witness for C6's amended theorem on the mock path. -/
theorem c6_witness :
    (pyObjGet (analyze_resume_vs_jd c6mockLib "r" "j" "rn" "jt" 1 2 3)
      "match_score").isSome = true ∧
    (pyObjGet (analyze_resume_vs_jd c6mockLib "r" "j" "rn" "jt" 1 2 3)
      "strengths").isSome = true := by
  obtain ⟨kvs, he, hkeys, hs, hw, hi, hlist⟩ :=
    c6_analyze_keys_amended c6mockLib "r" "j" "rn" "jt" 1 2 3
  rw [he]
  exact ⟨hkeys "match_score" (by simp [expectedKeys]),
    hkeys "strengths" (by simp [expectedKeys])⟩
